import Mathlib

/-!
Verification of the Map Composition & Interaction Engine
(src/src/components/MapBoard.tsx).

The component is shallowly embedded: the React state is a record, the
init effect and its dependency array are a step function on that record,
the `load` handler is a function from fetch results to the list of engine
calls it performs, and the hover handler is a function from the query
result to the cursor and popup state.  Engine calls (addSource, addLayer,
setLayoutProperty) are recorded as a trace instead of being performed.
-/

/-- Basemap keys, from `STYLES` (MapBoard.tsx lines 14-18). -/
inductive StyleKey
  | terrain
  | dark
deriving DecidableEq, Repr

/-- `STYLES` lookup (MapBoard.tsx lines 14-17). -/
def STYLES : StyleKey → String
  | .terrain => "/styles/opentopo.json"
  | .dark => "/styles/carto-dark.json"

/-- `LayerKey` (MapBoard.tsx line 20): the three logical layers. -/
inductive LayerKey
  | departments
  | communes
  | sections
deriving DecidableEq, Repr

/-- The visibility state: the JS object `visible` modelled as an
association list so that the presence and identity of its keys is a
provable property rather than a typing artifact.  JS object key order is
insertion order, which the list order reflects. -/
abbrev VisState := List (LayerKey × Bool)

/-- Initial `visible` state (MapBoard.tsx line 29):
`{ departments: true, communes: false, sections: true }`. -/
def initVisible : VisState :=
  [(LayerKey.departments, true), (LayerKey.communes, false), (LayerKey.sections, true)]

/-- Property read `prev[key]` on the visibility object. -/
def lookupVis : VisState → LayerKey → Option Bool
  | [], _ => none
  | p :: t, k => if p.1 = k then some p.2 else lookupVis t k

/-- The JS object spread `{ ...prev, [key]: b }`: replace the value at
`key` when an entry exists (keys keep their positions), otherwise append
the new key at the end. -/
def setKey : VisState → LayerKey → Bool → VisState
  | [], k, b => [(k, b)]
  | p :: t, k, b => if p.1 = k then (k, b) :: t else p :: setKey t k b

/-- The state part of `toggle` (MapBoard.tsx line 108):
`{ ...prev, [key]: !prev[key] }`.  In JS, `!prev[key]` is `true` when the
key is absent (`!undefined`), which `getD false` reproduces. -/
def toggleVis (s : VisState) (k : LayerKey) : VisState :=
  setKey s k (!((lookupVis s k).getD false))

/-- The key sequence of a visibility object. -/
def keys (s : VisState) : List LayerKey := s.map Prod.fst

/-- `Object.keys` of the initial state, and of every reachable state. -/
def allLayerKeys : List LayerKey :=
  [LayerKey.departments, LayerKey.communes, LayerKey.sections]

theorem lookup_setKey (s : VisState) (k : LayerKey) (b : Bool) :
    lookupVis (setKey s k b) k = some b := by
  induction s with
  | nil => simp [setKey, lookupVis]
  | cons p t ih =>
    by_cases h : p.1 = k
    · simp [setKey, lookupVis, h]
    · simp [setKey, lookupVis, h, ih]

theorem keys_setKey (s : VisState) (k : LayerKey) (b : Bool)
    (h : k ∈ keys s) : keys (setKey s k b) = keys s := by
  induction s with
  | nil => exact absurd h (List.not_mem_nil k)
  | cons p t ih =>
    by_cases hp : p.1 = k
    · simp [setKey, keys, hp]
    · have hcons : k ∈ p.1 :: keys t := h
      have ht : k ∈ keys t := by
        rcases List.mem_cons.mp hcons with h1 | h1
        · exact absurd h1.symm hp
        · exact h1
      have ih2 : (setKey t k b).map Prod.fst = t.map Prod.fst := ih ht
      simp only [setKey, if_neg hp, keys, List.map_cons]
      rw [ih2]

theorem keys_toggleVis (s : VisState) (k : LayerKey) (h : k ∈ keys s) :
    keys (toggleVis s k) = keys s :=
  keys_setKey s k _ h

theorem lookup_toggleVis (s : VisState) (k : LayerKey) (b : Bool)
    (h : lookupVis s k = some b) :
    lookupVis (toggleVis s k) k = some (!b) := by
  unfold toggleVis
  rw [h]
  exact lookup_setKey s k (!b)

/-- Claim C6: toggling the same layer twice returns the stored boolean
for that layer to its original value — `toggle` composed with itself is
the identity on the stored flag (`{ ...prev, [key]: !prev[key] }` applied
twice). -/
theorem toggle_involution (s : VisState) (k : LayerKey) (b : Bool)
    (h : lookupVis s k = some b) :
    lookupVis (toggleVis (toggleVis s k) k) k = some b := by
  have h1 : lookupVis (toggleVis s k) k = some (!b) := lookup_toggleVis s k b h
  have h2 : lookupVis (toggleVis (toggleVis s k) k) k = some (!(!b)) :=
    lookup_toggleVis (toggleVis s k) k (!b) h1
  rw [h2, Bool.not_not]

/-- Claim C6 witness: toggling `communes` twice from the initial state
restores its stored flag `false`. -/
theorem toggle_involution_witness :
    lookupVis (toggleVis (toggleVis initVisible LayerKey.communes) LayerKey.communes)
      LayerKey.communes = some false :=
  toggle_involution initVisible LayerKey.communes false (by decide)

/-!
## The component as a state machine

`MapBoard` keeps React state `base` and `visible` (lines 28-29).  The
init effect (lines 31-104) creates a `maplibregl.Map`, and its cleanup
(line 103) removes it; its dependency array is `[base, visible]`
(line 104).  React re-runs the effect after a committed render in which
some dependency differs from the previous render.  `surfaceGen` counts
how many times the effect has run: it increases exactly when the old
Map is removed and a fresh Map instance is created, so toggling equality
of `surfaceGen` across a step is "the render surface object stays the
same instance".  React compares dependencies with Object.is (reference
equality for the `visible` object); we compare by value, which agrees
here: `toggle` always flips a stored boolean, so the new object is never
value-equal to the old one, and `base` is a primitive compared by value.
-/

/-- The externally invokable intent signals: `toggle(LayerKey)`
(lines 106-119) and `setBase(StyleKey)` (line 28 / lines 135, 141). -/
inductive Op
  | toggle (k : LayerKey)
  | setBase (s : StyleKey)
deriving DecidableEq, Repr

/-- React state of `MapBoard` plus the generation counter of the live
Map instance owned by the init effect. -/
structure ReactBoard where
  base : StyleKey
  visible : VisState
  surfaceGen : Nat
deriving DecidableEq, Repr

/-- State after the first mount: effect has run once. -/
def initBoard : ReactBoard := ⟨StyleKey.terrain, initVisible, 0⟩

/-- A committed render with new state values: the init effect re-runs
(old Map removed, new Map created, `surfaceGen` bumped) exactly when a
member of its dependency array `[base, visible]` (line 104) changed. -/
def render (old : ReactBoard) (newBase : StyleKey) (newVis : VisState) : ReactBoard :=
  if newBase = old.base ∧ newVis = old.visible then
    ⟨newBase, newVis, old.surfaceGen⟩
  else
    ⟨newBase, newVis, old.surfaceGen + 1⟩

/-- One user intent processed by the component:
`toggle` runs the `setVisible` updater (line 108), `setBase` replaces
the basemap key; either way React then reconciles the effect. -/
def boardStep (st : ReactBoard) : Op → ReactBoard
  | .toggle k => render st st.base (toggleVis st.visible k)
  | .setBase s => render st s st.visible

/-- The component run on a sequence of user intents from the mount. -/
def runBoard (ops : List Op) : ReactBoard := ops.foldl boardStep initBoard

theorem visible_render (old : ReactBoard) (newBase : StyleKey) (newVis : VisState) :
    (render old newBase newVis).visible = newVis := by
  unfold render
  split <;> rfl

theorem visible_boardStep (st : ReactBoard) (op : Op) :
    (boardStep st op).visible = st.visible ∨
    ∃ k, (boardStep st op).visible = toggleVis st.visible k := by
  cases op with
  | toggle k => exact Or.inr ⟨k, visible_render st st.base (toggleVis st.visible k)⟩
  | setBase s => exact Or.inl (visible_render st s st.visible)

theorem keys_boardStep (st : ReactBoard) (op : Op)
    (h : keys st.visible = allLayerKeys) :
    keys (boardStep st op).visible = allLayerKeys := by
  rcases visible_boardStep st op with hv | ⟨k, hv⟩
  · rw [hv, h]
  · rw [hv, keys_toggleVis st.visible k ?_, h]
    rw [h]
    cases k <;> simp [allLayerKeys]

theorem keys_foldl (ops : List Op) :
    ∀ st : ReactBoard, keys st.visible = allLayerKeys →
      keys (ops.foldl boardStep st).visible = allLayerKeys := by
  induction ops with
  | nil => intro st h; exact h
  | cons op rest ih =>
    intro st h
    exact ih (boardStep st op) (keys_boardStep st op h)

/-- Claim C7: from the mount onward, after any sequence of `toggle` and
`setBase` operations, the visibility object has exactly one boolean
entry for each of `departments`, `communes`, `sections`, and no other
key: its key sequence is always exactly `allLayerKeys`. -/
theorem visibility_keys_invariant (ops : List Op) :
    keys (runBoard ops).visible = allLayerKeys :=
  keys_foldl ops initBoard (by decide)

/-- Claim C1 (code behavior at the failing input): the init effect's
dependency array is `[base, visible]` (line 104), so `toggle("communes")`
from the initial state removes the live Map and creates a new instance
(`surfaceGen` increments) even though the basemap key did not change.
This contradicts the code's own comment "reinit map when basemap
changes": only a `StyleKey` change should rebuild the surface. -/
theorem toggle_rebuilds_surface :
    (boardStep initBoard (Op.toggle LayerKey.communes)).surfaceGen
        = initBoard.surfaceGen + 1 ∧
      (boardStep initBoard (Op.toggle LayerKey.communes)).base = initBoard.base := by
  decide

/-!
## The load handler (composition pass)

`map.on("load", async () => { ... })` (lines 47-101) awaits the three
geometry fetches one after another (lines 48-50) and only then registers
the three sources (lines 53-55), the five styled layers (lines 58-71)
and pushes the stored visibility (lines 74-80).  A rejected fetch makes
the `async` body throw at that `await`: nothing after it runs and the
rejection escapes the handler unhandled.  Engine calls are recorded as a
trace of `SurfOp` values.
-/

/-- An engine call performed on the live Map during composition. -/
inductive SurfOp
  | addSource (name : String)
  | addLayer (id : String)
  | setLayout (id : String) (visible : Bool)
deriving DecidableEq, Repr

/-- Outcome of the three geometry fetches of one composition pass
(lines 48-50): `true` means the fetch-and-decode resolved. -/
structure FetchResults where
  deps : Bool
  coms : Bool
  secs : Bool
deriving DecidableEq, Repr

/-- The id list used by the composition-time `apply` helper
(lines 75-77). -/
def applyIds : LayerKey → List String
  | .departments => ["departments-fill", "departments-outline"]
  | .communes => ["communes-outline"]
  | .sections => ["sections-fill", "sections-outline"]

/-- The `apply` helper (lines 74-79): push one layer's visibility to
every surface-layer id it owns, with no existence guard. -/
def apply (k : LayerKey) (on_ : Bool) : List SurfOp :=
  (applyIds k).map (fun id => SurfOp.setLayout id on_)

/-- Line 80: `(Object.keys(visible) as LayerKey[]).forEach(k => apply(k,
visible[k]))` — iterate the entries of the visibility object in key
order. -/
def applyAll : VisState → List SurfOp
  | [] => []
  | (k, b) :: rest => apply k b ++ applyAll rest

/-- The engine calls of a fully successful composition body: sources
(lines 53-55), then layers (lines 58-71), then the initial visibility
push (lines 74-80). -/
def composeOps (vis : VisState) : List SurfOp :=
  [SurfOp.addSource "departments", SurfOp.addSource "communes", SurfOp.addSource "sections",
   SurfOp.addLayer "departments-fill", SurfOp.addLayer "departments-outline",
   SurfOp.addLayer "communes-outline",
   SurfOp.addLayer "sections-fill", SurfOp.addLayer "sections-outline"]
  ++ applyAll vis

/-- The `load` handler body (lines 47-101): each fetch is awaited before
the next is issued; a rejection at any `await` aborts the body before
any source or layer registration, and escapes as an error. -/
def onLoad (fr : FetchResults) (vis : VisState) : Except String (List SurfOp) :=
  if !fr.deps then .error "FetchFailed departments"
  else if !fr.coms then .error "FetchFailed communes"
  else if !fr.secs then .error "FetchFailed sections"
  else .ok (composeOps vis)

/-- The engine calls a composition pass actually performs: the trace on
success, nothing once the body has thrown. -/
def performedOps (fr : FetchResults) (vis : VisState) : List SurfOp :=
  match onLoad fr vis with
  | .ok t => t
  | .error _ => []

/-- The declared registration order of the five surface layers
(lines 58-71): departments beneath communes beneath sections, fill
before outline. -/
def registrationOrder : List String :=
  ["departments-fill", "departments-outline", "communes-outline",
   "sections-fill", "sections-outline"]

/-- Project an engine call to the layer id it registers, if any. -/
def layerOf : SurfOp → Option String
  | .addLayer id => some id
  | _ => none

theorem applyAll_no_layers (vis : VisState) :
    (applyAll vis).filterMap layerOf = [] := by
  induction vis with
  | nil => rfl
  | cons p rest ih =>
    obtain ⟨k, b⟩ := p
    rw [applyAll, List.filterMap_append, ih, List.append_nil]
    cases k <;> rfl

/-- Claim C3: every successful composition registers the surface layers
exactly in catalog order — departments-fill, departments-outline,
communes-outline, sections-fill, sections-outline — whatever the stored
visibility is; the fetches are awaited sequentially, so no completion
order can reorder the registrations. -/
theorem registration_order_fixed (fr : FetchResults) (vis : VisState)
    (h1 : fr.deps = true) (h2 : fr.coms = true) (h3 : fr.secs = true) :
    (performedOps fr vis).filterMap layerOf = registrationOrder := by
  obtain ⟨a, b, c⟩ := fr
  simp only at h1 h2 h3
  subst h1; subst h2; subst h3
  show (composeOps vis).filterMap layerOf = registrationOrder
  rw [composeOps, List.filterMap_append, applyAll_no_layers, List.append_nil]
  rfl

/-- Claim C3 witness: the all-successful composition from the initial
visibility registers the five layers in catalog order. -/
theorem registration_order_fixed_witness :
    (performedOps ⟨true, true, true⟩ initVisible).filterMap layerOf = registrationOrder :=
  registration_order_fixed ⟨true, true, true⟩ initVisible rfl rfl rfl

/-- Claim C2 counterexample: when only the sections fetch fails
(`⟨true, true, false⟩`), the handler body throws at the third `await`
(line 50) before any registration, so the departments source — which the
claim says is still registered — never is, and neither is any visibility
push for it. -/
theorem failed_fetch_aborts_composition_counterexample :
    onLoad ⟨true, true, false⟩ initVisible = Except.error "FetchFailed sections" ∧
      SurfOp.addSource "departments" ∉ performedOps ⟨true, true, false⟩ initVisible ∧
      SurfOp.addSource "communes" ∉ performedOps ⟨true, true, false⟩ initVisible := by
  refine ⟨rfl, ?_, ?_⟩ <;> simp [performedOps, onLoad]

/-- Claim C2 amended: a failed fetch for any LogicalLayer aborts the
whole composition pass — the `async` load handler has no error handling,
so once any of the three awaited fetches rejects, no source, no surface
layer and no visibility push is registered for any LogicalLayer, and the
rejection escapes the handler as an error. -/
theorem failed_fetch_aborts_composition (fr : FetchResults) (vis : VisState)
    (h : fr.deps = false ∨ fr.coms = false ∨ fr.secs = false) :
    performedOps fr vis = [] := by
  obtain ⟨a, b, c⟩ := fr
  cases a <;> cases b <;> cases c <;> simp_all [performedOps, onLoad]

/-- Claim C2 amended, witness: the pass in which only the departments
fetch fails performs no engine call at all. -/
theorem failed_fetch_aborts_composition_witness :
    performedOps ⟨false, true, true⟩ initVisible = [] :=
  failed_fetch_aborts_composition ⟨false, true, true⟩ initVisible (Or.inl rfl)

/-!
## Stale callbacks across a surface teardown

The load handler's continuation closes over the `map` const of the
effect run that installed it (line 34).  The cleanup (line 103) only
calls `map.remove()`: nothing cancels the in-flight fetches, and the
continuation contains no check that its `map` is still the live one, so
when the awaited fetches resolve after a style change it calls
`addSource`/`addLayer`/`setLayoutProperty` on the removed Map instance.
We tag every engine call with the generation of the Map instance it is
invoked on.
-/

/-- A world: which Map generation (if any) is live, and the log of
engine calls, each tagged with the Map generation it was invoked on. -/
structure World where
  live : Option Nat
  log : List (Nat × SurfOp)
deriving DecidableEq, Repr

/-- The load continuation of the effect run that created Map generation
`g`, resuming after its fetches settle: it performs its composition
calls on the captured Map `g` unconditionally — the source has no
staleness guard. -/
def loadContinuation (g : Nat) (fr : FetchResults) (vis : VisState) (w : World) : World :=
  ⟨w.live, w.log ++ (performedOps fr vis).map (fun op => (g, op))⟩

/-- The in-flight composition for Map 0 resumes after a basemap change
has removed Map 0 and created Map 1. -/
def staleWorld : World :=
  loadContinuation 0 ⟨true, true, true⟩ initVisible ⟨some 1, []⟩

/-- Claim C4 counterexample: a fetch callback completing after its
owning Map (generation 0) was destroyed and replaced (by generation 1)
is not dropped: it registers its sources on the destroyed instance. -/
theorem stale_callback_counterexample :
    staleWorld.live = some 1 ∧
      (0, SurfOp.addSource "departments") ∈ staleWorld.log := by
  constructor
  · rfl
  · decide

/-- Claim C4 amended: the code has no staleness guard — a load
continuation whose owning Map generation `g` is no longer the live one
still performs every engine call of its composition on the destroyed
instance `g` (here exhibited on the first source registration of a
successful pass), and it never touches the lifecycle state. -/
theorem stale_callback_not_dropped (w : World) (g : Nat) (fr : FetchResults)
    (vis : VisState) (hdead : w.live ≠ some g)
    (h1 : fr.deps = true) (h2 : fr.coms = true) (h3 : fr.secs = true) :
    (g, SurfOp.addSource "departments") ∈ (loadContinuation g fr vis w).log ∧
      (loadContinuation g fr vis w).live ≠ some g := by
  obtain ⟨a, b, c⟩ := fr
  simp only at h1 h2 h3
  subst h1; subst h2; subst h3
  refine ⟨?_, hdead⟩
  show (g, SurfOp.addSource "departments") ∈
    w.log ++ (composeOps vis).map (fun op => (g, op))
  refine List.mem_append_right _ ?_
  exact List.mem_map_of_mem _ (by simp [composeOps])

/-- Claim C4 amended, witness: the stale continuation for destroyed Map
0 registers the departments source on Map 0 while Map 1 is live. -/
theorem stale_callback_not_dropped_witness :
    (0, SurfOp.addSource "departments") ∈
        (loadContinuation 0 ⟨true, true, true⟩ initVisible ⟨some 1, []⟩).log ∧
      (loadContinuation 0 ⟨true, true, true⟩ initVisible ⟨some 1, []⟩).live
        ≠ some 0 :=
  stale_callback_not_dropped ⟨some 1, []⟩ 0 ⟨true, true, true⟩ initVisible
    (by decide) rfl rfl rfl

/-!
## The live-visibility push inside `toggle`

`toggle` (lines 106-119) recomputes the id list for the toggled layer
(lines 110-115) and pushes the new visibility to the live Map, guarding
every push with `map?.getLayer(id) &&` (line 116): ids that do not exist
on the Map, or a missing Map, are skipped silently.
-/

/-- The id list recomputed inside `toggle` (lines 110-115). -/
def toggleIds : LayerKey → List String
  | .departments => ["departments-fill", "departments-outline"]
  | .communes => ["communes-outline"]
  | .sections => ["sections-fill", "sections-outline"]

/-- Line 116: `ids.forEach(id => map?.getLayer(id) &&
map.setLayoutProperty(id, "visibility", ...))`.  `mapLayers` is the set
of layer ids present on `mapRef.current` (`none` when the ref is null);
`on_` is `next[key]`. -/
def togglePushes (mapLayers : Option (List String)) (k : LayerKey) (on_ : Bool) :
    List SurfOp :=
  match mapLayers with
  | none => []
  | some ls =>
    (((toggleIds k).filter (fun id => decide (id ∈ ls))).map
      (fun id => SurfOp.setLayout id on_))

/-- The whole `toggle(key)` call (lines 106-119): the `setVisible`
updater computes the next state, pushes the new flag to the live Map,
and returns the next state. -/
def toggle (vis : VisState) (mapLayers : Option (List String)) (k : LayerKey) :
    VisState × List SurfOp :=
  let next := toggleVis vis k
  (next, togglePushes mapLayers k ((lookupVis next k).getD false))

/-- Claim C8: the visibility push inside `toggle` never touches an id
absent from the live Map: with no Map it pushes nothing, and every
`setLayoutProperty` it issues names an id that both exists on the Map
and is owned by the toggled layer — missing ids are skipped silently,
and the push is a total function (no exception). -/
theorem toggle_skips_missing_ids :
    (∀ (k : LayerKey) (b : Bool), togglePushes none k b = []) ∧
      ∀ (ls : List String) (k : LayerKey) (b : Bool) (op : SurfOp),
        op ∈ togglePushes (some ls) k b →
          ∃ id, id ∈ ls ∧ id ∈ toggleIds k ∧ op = SurfOp.setLayout id b := by
  constructor
  · intro k b
    rfl
  · intro ls k b op hop
    rcases List.mem_map.mp hop with ⟨id, hid, rfl⟩
    rcases List.mem_filter.mp hid with ⟨hmem, hdec⟩
    exact ⟨id, of_decide_eq_true hdec, hmem, rfl⟩

/-- Claim C8 witness: on a Map carrying only `sections-fill` (the window
before composition finishes), toggling `sections` pushes exactly to the
existing id. -/
theorem toggle_skips_missing_ids_witness :
    ∃ id, id ∈ ["sections-fill"] ∧ id ∈ toggleIds LayerKey.sections ∧
      SurfOp.setLayout "sections-fill" true = SurfOp.setLayout id true :=
  toggle_skips_missing_ids.2 ["sections-fill"] LayerKey.sections true
    (SurfOp.setLayout "sections-fill" true) (by decide)

/-- Claim C10: the LayerKey-to-surface-ids mapping written out twice in
the source — in the composition-time `apply` helper (lines 75-77) and
inside `toggle` (lines 110-115) — is extensionally the same mapping. -/
theorem apply_toggle_ids_agree : ∀ k : LayerKey, applyIds k = toggleIds k := by
  intro k
  cases k <;> rfl

/-!
## Hover resolution

The mousemove handler (lines 86-99) queries rendered features at the
pointer restricted to `hoverTargets = ["sections-fill",
"departments-fill"]` (line 84), sets the cursor from `features.length`,
removes the popup when nothing is under the pointer, and otherwise moves
the single popup to the pointer with the first feature's name.  The
engine's `queryRenderedFeatures` is an external capability; per its
contract (and §4.7 of the spec, "engine-reported topmost"), the result
lists features of the requested layers topmost first, i.e. in reverse
registration order of their layers.
-/

/-- A rendered feature as the handler sees it: the surface layer it came
from and its optional `name` property. -/
structure Feature where
  layer : String
  name : Option String
deriving DecidableEq, Repr

/-- Line 84: the layers the query is restricted to. -/
def hoverTargets : List String := ["sections-fill", "departments-fill"]

/-- Position of a surface-layer id in the registration order; used to
state "topmost first" (a later-registered layer paints on top). -/
def layerIdx (id : String) : Nat := registrationOrder.indexOf id

/-- Line 94: `(f.properties?.name as string) || "Unnamed"` — JS `||`
falls through on a missing name and on the empty string. -/
def displayName (f : Feature) : String :=
  match f.name with
  | some s => if s = "" then "Unnamed" else s
  | none => "Unnamed"

/-- The mousemove handler (lines 86-99) as a function from the query
result and the previous popup attachment to the new cursor style and
popup attachment (`none` = popup removed, `some label` = popup shown at
the pointer with that label). -/
def onMouseMove (features : List Feature) (prevPopup : Option String) :
    String × Option String :=
  let cursor : String := if features.length = 0 then "" else "pointer"
  match features with
  | [] => (cursor, none)
  | f :: _ => (cursor, some (displayName f))

/-- Claim C9: a pointer-move whose query returns no features removes the
popup (whatever was attached before) and resets the cursor affordance to
the empty default, placing no popup. -/
theorem hover_empty_clears (prevPopup : Option String) :
    onMouseMove [] prevPopup = ("", none) := rfl

/-- Claim C5: when the query result respects the engine's topmost-first
order over the registered layers, is drawn from the restricted
`hoverTargets`, and contains features of both `sections-fill` and
`departments-fill`, the handler's `features[0]` choice is a
`sections-fill` feature, and the popup shows its name. -/
theorem hover_picks_sections (features : List Feature) (prevPopup : Option String)
    (horder : features.Pairwise (fun a b => layerIdx b.layer ≤ layerIdx a.layer))
    (hsub : ∀ f ∈ features, f.layer ∈ hoverTargets)
    (hsec : ∃ f ∈ features, f.layer = "sections-fill")
    (hdep : ∃ f ∈ features, f.layer = "departments-fill") :
    ∃ f, features.head? = some f ∧ f.layer = "sections-fill" ∧
      onMouseMove features prevPopup = ("pointer", some (displayName f)) := by
  obtain ⟨fs, hfs, hfsl⟩ := hsec
  cases features with
  | nil => exact absurd hfs (List.not_mem_nil fs)
  | cons f rest =>
    have hmove : onMouseMove (f :: rest) prevPopup = ("pointer", some (displayName f)) := by
      simp [onMouseMove]
    have hf : f.layer ∈ hoverTargets := hsub f (List.mem_cons_self f rest)
    rcases List.mem_cons.mp hf with hl | hl
    · exact ⟨f, rfl, hl, hmove⟩
    · have hl2 : f.layer = "departments-fill" := by
        rcases List.mem_cons.mp hl with h | h
        · exact h
        · exact absurd h (List.not_mem_nil _)
      have hfs2 : fs ∈ rest := by
        rcases List.mem_cons.mp hfs with h | h
        · rw [h] at hfsl
          rw [hfsl] at hl2
          exact absurd hl2 (by decide)
        · exact h
      have hle : layerIdx fs.layer ≤ layerIdx f.layer :=
        (List.pairwise_cons.mp horder).1 fs hfs2
      rw [hfsl, hl2] at hle
      exact absurd hle (by decide)

/-- Claim C5 witness: a query result with a sections feature above a
departments feature (as the engine reports after catalog-order
registration) makes the handler pick and display the sections one. -/
theorem hover_picks_sections_witness :
    ∃ f, ([⟨"sections-fill", some "Artibonite"⟩,
           ⟨"departments-fill", some "Nord"⟩] : List Feature).head? = some f ∧
      f.layer = "sections-fill" ∧
      onMouseMove [⟨"sections-fill", some "Artibonite"⟩,
           ⟨"departments-fill", some "Nord"⟩] none = ("pointer", some (displayName f)) :=
  hover_picks_sections
    [⟨"sections-fill", some "Artibonite"⟩, ⟨"departments-fill", some "Nord"⟩] none
    (by decide) (by decide) (by decide) (by decide)
